import Mathlib

/-
Verification of the schematrode validator core (fast_validator.py and
schematron_to_xslt_local.py): severity classification, SVRL analysis,
document aggregation, build cache, batch compilation, the stylesheet
executable cache and the namespace repair step.

Python strings are modelled as Lean String (lowercasing via Char.toLower,
which agrees with Python str.lower on the ASCII keywords involved);
the substring operator "needle in hay" is modelled by containsSub.
-/

namespace Schematrode

/-- Character-wise lowercasing, modelling Python str.lower on ASCII text. -/
def lowerStr (s : String) : String := ⟨s.data.map Char.toLower⟩

/-- Boolean prefix test on character lists. -/
def isPrefixOfL : List Char → List Char → Bool
  | [], _ => true
  | _ :: _, [] => false
  | a :: as, b :: bs => a == b && isPrefixOfL as bs

/-- Boolean substring test on character lists: does the second list contain
the first as a contiguous sublist? Models the Python membership operator
on strings. -/
def containsL (needle : List Char) : List Char → Bool
  | [] => isPrefixOfL needle []
  | c :: cs => isPrefixOfL needle (c :: cs) || containsL needle cs

/-- Python expression "needle in hay" for strings. -/
def containsSub (hay needle : String) : Bool := containsL needle.data hay.data

/-- Python idiom any(word in m for word in words). -/
def anyKeyword (words : List String) (m : String) : Bool :=
  words.any (fun w => containsSub m w)

/-- The fatal keyword set of _determine_severity. -/
def fatalKeywords : List String := ["fatal", "critical", "must not", "required"]

/-- The error keyword set of _determine_severity. -/
def errorKeywords : List String := ["error", "invalid", "violation", "shall not"]

/-- The warning keyword set of _determine_severity. -/
def warningKeywords : List String := ["warning", "should", "recommend"]

/-- The info keyword set of _determine_severity. -/
def infoKeywords : List String := ["info", "information", "note"]

/-- Shallow embedding of FastSchematronValidator._determine_severity
(fast_validator.py lines 288-312): role first, then message keywords in
priority order, then the test expression, then the default. -/
def determine_severity (role message test : String) : String :=
  let role_lower := lowerStr role
  if role_lower = "fatal" ∨ role_lower = "error" ∨ role_lower = "warning" ∨ role_lower = "info" then
    role_lower
  else
    let message_lower := lowerStr message
    if anyKeyword fatalKeywords message_lower then "fatal"
    else if anyKeyword errorKeywords message_lower then "error"
    else if anyKeyword warningKeywords message_lower then "warning"
    else if anyKeyword infoKeywords message_lower then "info"
    else
      let test_lower := lowerStr test
      if containsSub test_lower "not(" ∨ containsSub test_lower "false()" then "error"
      else "error"

example : determine_severity "WARNING" "fatal error" "x" = "warning" := by decide
example : determine_severity "" "You should do this" "x" = "warning" := by decide
example : determine_severity "" "" "not(a)" = "error" := by decide
example : determine_severity "" "" "" = "error" := by decide
example : determine_severity "" "see the information" "" = "info" := by decide

/-- One svrl:failed-assert element as read by _analyze_svrl_output
(fast_validator.py lines 253-283): each attribute may be absent, and the
svrl:text child may be absent or carry no text (both modelled as none). -/
structure FailedAssert where
  location : Option String
  test : Option String
  role : Option String
  text : Option String
  ruleId : Option String
deriving Repr, DecidableEq

/-- Severity assigned by _analyze_svrl_output to one failed assertion:
the role attribute defaults to "error" when absent (line 256), the message
defaults to "No message" when the text element is absent, and an empty
message is also replaced by "No message" (the Python or-expression on
line 262) before _determine_severity is called. -/
def assertSeverity (fa : FailedAssert) : String :=
  let role := fa.role.getD "error"
  let message := fa.text.getD "No message"
  determine_severity role (if message = "" then "No message" else message) (fa.test.getD "Unknown")

/-- The four-key severity histogram initialised at fast_validator.py line 243. -/
structure SeverityBreakdown where
  fatal : Nat
  error : Nat
  warning : Nat
  info : Nat
deriving Repr, DecidableEq

/-- The all-zero histogram. -/
def emptyBreakdown : SeverityBreakdown := ⟨0, 0, 0, 0⟩

/-- Count one severity into the histogram; the final branch is the default
fallback of fast_validator.py line 268 for a severity outside the four keys. -/
def addSeverity (b : SeverityBreakdown) (s : String) : SeverityBreakdown :=
  if s = "fatal" then { b with fatal := b.fatal + 1 }
  else if s = "error" then { b with error := b.error + 1 }
  else if s = "warning" then { b with warning := b.warning + 1 }
  else if s = "info" then { b with info := b.info + 1 }
  else { b with error := b.error + 1 }

/-- Pointwise sum of two histograms, modelling the accumulation loop of
_create_json_result (fast_validator.py lines 362-364). -/
def addBreakdown (a b : SeverityBreakdown) : SeverityBreakdown :=
  ⟨a.fatal + b.fatal, a.error + b.error, a.warning + b.warning, a.info + b.info⟩

/-- One error_detail dictionary built by _analyze_svrl_output lines 270-283. -/
structure ErrorDetail where
  location : String
  test : String
  message : String
  severity : String
  role : String
  ruleId : Option String
deriving Repr, DecidableEq

/-- Build the error_detail record for one failed assertion, with the same
defaults as the source (location and test default to "Unknown", role to
"error", message to "No message"). -/
def detailOf (fa : FailedAssert) : ErrorDetail :=
  { location := fa.location.getD "Unknown"
    test := fa.test.getD "Unknown"
    message := fa.text.getD "No message"
    severity := assertSeverity fa
    role := fa.role.getD "error"
    ruleId := fa.ruleId }

/-- A parsed SVRL document: the three element kinds the analyzer counts. -/
structure SvrlDoc where
  firedRules : Nat
  failedAsserts : List FailedAssert
  successfulReports : Nat
deriving Repr, DecidableEq

/-- The per-stylesheet result dictionary built by _validate_against_xslt
(fast_validator.py lines 178-186) and filled in by _analyze_svrl_output.
severityBreakdown is none exactly when the key was never set (parse failed
or the run never reached analysis); parseWarning records the warning
printed at line 286. -/
structure RunResult where
  success : Bool
  firedRules : Nat
  failedAssertions : Nat
  successfulReports : Nat
  severityBreakdown : Option SeverityBreakdown
  errorDetails : List ErrorDetail
  parseWarning : Bool
deriving Repr, DecidableEq

/-- Shallow embedding of _analyze_svrl_output (fast_validator.py lines
220-286). The raw SVRL text is modelled already parsed: none means
ET.fromstring raised, in which case the exception is caught, the result is
left untouched and a warning is recorded. -/
def analyze_svrl_output (raw : Option SvrlDoc) (r : RunResult) : RunResult :=
  match raw with
  | none => { r with parseWarning := true }
  | some doc =>
      let r := { r with
        firedRules := doc.firedRules
        failedAssertions := doc.failedAsserts.length
        successfulReports := doc.successfulReports
        severityBreakdown :=
          some (doc.failedAsserts.foldl (fun b fa => addSeverity b (assertSeverity fa)) emptyBreakdown) }
      if doc.failedAsserts.isEmpty then r
      else { r with errorDetails := doc.failedAsserts.map detailOf }

/-- Outcome of one stylesheet execution as observed at the boundary of
_validate_against_xslt: stylesheet compilation failed (lines 191-193), the
engine raised (line 213), the engine set its fault flag (lines 198-200), or
it produced raw output, which either parses to an SvrlDoc or not. -/
inductive ExecOutcome
  | compileFailed
  | raised
  | engineFault
  | produced (raw : Option SvrlDoc)
deriving Repr, DecidableEq

/-- The initial result dictionary of _validate_against_xslt (lines 178-186). -/
def initialRunResult : RunResult :=
  { success := false, firedRules := 0, failedAssertions := 0, successfulReports := 0
    severityBreakdown := none, errorDetails := [], parseWarning := false }

/-- Shallow embedding of _validate_against_xslt (fast_validator.py lines
173-218): on any failure path the initial zero counts are returned with
success false; when output is produced, success is set to true before the
analysis step runs. -/
def validate_against_xslt (o : ExecOutcome) : RunResult :=
  match o with
  | .compileFailed => initialRunResult
  | .raised => initialRunResult
  | .engineFault => initialRunResult
  | .produced raw => analyze_svrl_output raw { initialRunResult with success := true }

example :
    validate_against_xslt (.produced none) =
      { initialRunResult with success := true, parseWarning := true } := by decide

/-- What validate_xml_file sees for one entry of its xsl_files list: the
file is missing on disk (lines 127-135) or it is run (line 138). -/
inductive XslCase
  | missingFile
  | run (o : ExecOutcome)
deriving Repr, DecidableEq

/-- One element of the xslt_results list: a missing-file stub dictionary
(success false, no counts) or a full run result. -/
inductive XsltEntry
  | missingFile
  | ran (r : RunResult)
deriving Repr, DecidableEq

/-- The success flag of one xslt_results entry. -/
def entrySuccess : XsltEntry → Bool
  | .missingFile => false
  | .ran r => r.success

/-- The failed_assertions count of one xslt_results entry; a missing-file
stub carries no count. -/
def entryFailed : XsltEntry → Nat
  | .missingFile => 0
  | .ran r => r.failedAssertions

/-- The xslt_results entry produced for one input case. -/
def caseEntry : XslCase → XsltEntry
  | .missingFile => .missingFile
  | .run o => .ran (validate_against_xslt o)

/-- The document-level results dictionary of validate_xml_file
(fast_validator.py lines 115-124). -/
structure DocResult where
  xsltResults : List XsltEntry
  success : Bool
  totalFiredRules : Nat
  totalFailedAssertions : Nat
  totalSuccessfulReports : Nat
deriving Repr, DecidableEq

/-- One iteration of the loop at fast_validator.py lines 126-146. -/
def docStep (acc : DocResult) (c : XslCase) : DocResult :=
  match c with
  | .missingFile =>
      { acc with xsltResults := acc.xsltResults ++ [XsltEntry.missingFile], success := false }
  | .run o =>
      let r := validate_against_xslt o
      let acc := { acc with xsltResults := acc.xsltResults ++ [XsltEntry.ran r] }
      if r.success then
        { acc with
          totalFiredRules := acc.totalFiredRules + r.firedRules
          totalFailedAssertions := acc.totalFailedAssertions + r.failedAssertions
          totalSuccessfulReports := acc.totalSuccessfulReports + r.successfulReports }
      else
        { acc with success := false }

/-- Shallow embedding of validate_xml_file (fast_validator.py lines
93-171) restricted to its aggregation logic: fold the per-stylesheet loop
over the initial results dictionary. -/
def validate_xml_file (cases : List XslCase) : DocResult :=
  cases.foldl docStep
    { xsltResults := [], success := true
      totalFiredRules := 0, totalFailedAssertions := 0, totalSuccessfulReports := 0 }

/-- The is_valid field written by _create_json_result
(fast_validator.py line 338). -/
def is_valid (d : DocResult) : Bool :=
  d.success && d.totalFailedAssertions == 0

/-- One schematron_results entry of the JSON report
(fast_validator.py lines 366-375). -/
structure SchematronResult where
  rulesFired : Nat
  failedAssertions : Nat
  successfulReports : Nat
  severityBreakdown : Option SeverityBreakdown
  errors : List ErrorDetail
deriving Repr, DecidableEq

/-- The logical content of the JSON report built by _create_json_result
(fast_validator.py lines 314-394), omitting timing and file metadata. -/
structure JsonReport where
  validationSuccess : Bool
  totalRulesFired : Nat
  totalFailedAssertions : Nat
  totalSuccessfulReports : Nat
  isValid : Bool
  overallSeverityBreakdown : SeverityBreakdown
  schematronResults : List SchematronResult
deriving Repr, DecidableEq

/-- One iteration of the loop at fast_validator.py lines 350-394: an entry
whose success flag is false is skipped entirely; otherwise its histogram is
added to the overall histogram and a schematron_results entry is appended. -/
def jsonStep (acc : SeverityBreakdown × List SchematronResult) (e : XsltEntry) :
    SeverityBreakdown × List SchematronResult :=
  match e with
  | .missingFile => acc
  | .ran r =>
      if r.success then
        (addBreakdown acc.1 (r.severityBreakdown.getD emptyBreakdown),
         acc.2 ++ [{ rulesFired := r.firedRules
                     failedAssertions := r.failedAssertions
                     successfulReports := r.successfulReports
                     severityBreakdown := r.severityBreakdown
                     errors := r.errorDetails }])
      else acc

/-- Shallow embedding of _create_json_result (fast_validator.py lines
314-394): overall summary from the document totals, histogram and
per-rule-set list from the successful runs only. -/
def create_json_result (d : DocResult) : JsonReport :=
  let folded := d.xsltResults.foldl jsonStep (emptyBreakdown, [])
  { validationSuccess := d.success
    totalRulesFired := d.totalFiredRules
    totalFailedAssertions := d.totalFailedAssertions
    totalSuccessfulReports := d.totalSuccessfulReports
    isValid := is_valid d
    overallSeverityBreakdown := folded.1
    schematronResults := folded.2 }

/-- The successful runs of an xslt_results list, in order. -/
def successfulRuns (es : List XsltEntry) : List RunResult :=
  es.filterMap fun e =>
    match e with
    | .missingFile => none
    | .ran r => if r.success then some r else none

/-- Shallow embedding of get_cache_info (schematron_to_xslt_local.py lines
91-107). The cache file is modelled as the list of lines of its stripped
content; none models a missing or unreadable file (the read raises and the
exception is swallowed). A record of fewer than two lines is malformed and
yields the empty dictionary, modelled as none. -/
def get_cache_info (record : Option (List String)) : Option (String × String) :=
  match record with
  | none => none
  | some (h :: t :: _) => some (h, t)
  | some _ => none

/-- The on-disk situation of one rule source as seen by
needs_transformation: whether the compiled .xsl output exists, the MD5
digest of the current source bytes (kept abstract), and the cache record. -/
structure RuleSourceState where
  outputExists : Bool
  currentHash : String
  cacheRecord : Option (List String)
deriving Repr, DecidableEq

/-- Shallow embedding of needs_transformation (schematron_to_xslt_local.py
lines 120-135): missing output forces a rebuild; otherwise the stored hash
(cache_info.get, i.e. none for an absent record) is compared with the
freshly computed hash. -/
def needs_transformation (st : RuleSourceState) : Bool :=
  if !st.outputExists then true
  else if ((get_cache_info st.cacheRecord).map Prod.fst) != some st.currentHash then true
  else false

example : needs_transformation ⟨true, "h", some ["h", "123"]⟩ = false := by decide
example : needs_transformation ⟨true, "h", some ["g", "123"]⟩ = true := by decide
example : needs_transformation ⟨true, "h", some ["h"]⟩ = true := by decide
example : needs_transformation ⟨true, "h", none⟩ = true := by decide
example : needs_transformation ⟨false, "h", some ["h", "123"]⟩ = true := by decide

/-- One rule source as seen by the batch loop of
transform_all_schematron_files: whether needs_transformation would return
true for it, and whether transform_schematron_file would succeed on it. -/
structure BatchSource where
  needsT : Bool
  compiles : Bool
deriving Repr, DecidableEq

/-- How one source ends in the batch loop (schematron_to_xslt_local.py
lines 383-396): skipped as up to date, compiled, or failed. -/
inductive BatchOutcome
  | skipped
  | compiled
  | failed
deriving Repr, DecidableEq

/-- The body of the batch loop for one source (schematron_to_xslt_local.py
lines 383-396): skip unless forced or stale, otherwise compile. -/
def processSource (force : Bool) (s : BatchSource) : BatchOutcome :=
  if !force && !s.needsT then .skipped
  else if s.compiles then .compiled
  else .failed

/-- success_count counts exactly the skipped and compiled outcomes. -/
def outcomeCounted : BatchOutcome → Bool
  | .skipped => true
  | .compiled => true
  | .failed => false

/-- Shallow embedding of transform_all_schematron_files
(schematron_to_xslt_local.py lines 357-411): requirements failure or an
empty source list returns false with nothing processed; otherwise every
source is processed in order and overall success is
success_count == total_files. -/
def transform_all_schematron_files (requirementsMet : Bool) (force : Bool)
    (sources : List BatchSource) : List BatchOutcome × Bool :=
  if !requirementsMet then ([], false)
  else if sources.isEmpty then ([], false)
  else
    let outcomes := sources.map (processSource force)
    (outcomes, outcomes.countP (fun o => outcomeCounted o) == sources.length)

example :
    transform_all_schematron_files true false [⟨false, true⟩, ⟨true, true⟩, ⟨true, false⟩] =
      ([.skipped, .compiled, .failed], false) := by decide
example :
    transform_all_schematron_files true false [⟨false, false⟩, ⟨true, true⟩] =
      ([.skipped, .compiled], true) := by decide

/-- The in-process state read and written by get_compiled_xslt: the
xslt_cache dictionary (modelled as an association list over the string
cache key), the cache_hits statistic, and a ghost counter of how many times
the engine compile primitive was invoked. -/
structure XsltCacheState (E : Type) where
  cache : List (String × E)
  cacheHits : Nat
  engineCalls : Nat
deriving Repr, DecidableEq

/-- Outcome of one engine compile_stylesheet call: a usable executable, a
falsy return value (fast_validator.py line 80), or a raised exception
(line 89). -/
inductive CompileOutcome (E : Type)
  | ok (e : E)
  | falsy
  | raised
deriving Repr, DecidableEq

/-- Shallow embedding of get_compiled_xslt (fast_validator.py lines
64-91): cache hit returns the stored executable and bumps the hit counter;
a missing file returns none without touching the engine; otherwise the
engine is invoked once and only a usable executable is stored. -/
def get_compiled_xslt {E : Type} (st : XsltCacheState E) (key : String)
    (fileExists : Bool) (engine : CompileOutcome E) : Option E × XsltCacheState E :=
  match st.cache.lookup key with
  | some e => (some e, { st with cacheHits := st.cacheHits + 1 })
  | none =>
      if !fileExists then (none, st)
      else
        let st := { st with engineCalls := st.engineCalls + 1 }
        match engine with
        | .ok e => (some e, { st with cache := st.cache ++ [(key, e)] })
        | .falsy => (none, st)
        | .raised => (none, st)

/-- The text "xmlns:xsd=" whose presence blocks the repair
(schematron_to_xslt_local.py line 182). -/
def xsdMarker : List Char := "xmlns:xsd=".data

/-- The text appended to the truncated root tag: old_tag[:-1] plus this
string is the new tag (schematron_to_xslt_local.py line 195). -/
def xsdInsertion : List Char := " xmlns:xsd=\"http://www.w3.org/2001/XMLSchema\">".data

/-- The literal part of the root-tag pattern with the optional xsl group
present. -/
def styleOpen1 : List Char := "<xsl:stylesheet".data

/-- The literal part of the root-tag pattern without the xsl group. -/
def styleOpen2 : List Char := "<stylesheet".data

/-- Split a character list at the first character that equals the given
one, keeping it in the left part; none when it never occurs. -/
def splitAfterChar (stop : Char) : List Char → Option (List Char × List Char)
  | [] => none
  | c :: cs =>
      if c = stop then some ([c], cs)
      else
        match splitAfterChar stop cs with
        | some (t, r) => some (c :: t, r)
        | none => none

/-- Leftmost match of the Python regex <(?:xsl:)?stylesheet[^>]*?> used at
schematron_to_xslt_local.py lines 189-190: scan left to right for the
first position opening with one of the two tag literals, then extend the
match up to and including the first following closing angle bracket.
Returns (before, tag, rest). A position whose opening literal has no later
closing bracket admits no match anywhere to its right either, so the scan
returns none there, as re.search does. -/
def findStylesheetTag : List Char → Option (List Char × List Char × List Char)
  | [] => none
  | c :: cs =>
      if isPrefixOfL styleOpen1 (c :: cs) || isPrefixOfL styleOpen2 (c :: cs) then
        match splitAfterChar '>' (c :: cs) with
        | some (t, r) => some ([], t, r)
        | none => none
      else
        match findStylesheetTag cs with
        | some (b, t, r) => some (c :: b, t, r)
        | none => none

/-- Shallow embedding of add_missing_xsd_namespace
(schematron_to_xslt_local.py lines 171-212) on the artifact text, returning
the new content and the Boolean return value. Content containing the
marker is returned unchanged (line 183); otherwise the matched root tag is
rewritten in place. The source replaces the first occurrence of the
matched tag text, which is exactly the match position: the tag text starts
with an opening literal and contains a closing bracket only as its final
character, so any earlier occurrence would be an earlier regex match. -/
def add_missing_xsd_namespace (content : List Char) : List Char × Bool :=
  if containsL xsdMarker content then (content, false)
  else
    match findStylesheetTag content with
    | some (b, t, r) => (b ++ t.dropLast ++ xsdInsertion ++ r, true)
    | none => (content, false)

example :
    (add_missing_xsd_namespace "x<stylesheet a>y".data).1 =
      "x<stylesheet a xmlns:xsd=\"http://www.w3.org/2001/XMLSchema\">y".data := by decide

/-- The environment validate_samples runs in (fast_validator.py lines
405-463): one of the four early-return situations, or a list of sample
documents, each carried as the per-stylesheet cases validate_xml_file will
see for it. -/
inductive SamplesEnv
  | xsltGenerationFailed
  | noXsltFiles
  | samplesDirMissing
  | noXmlFiles
  | docs (files : List (List XslCase))

/-- Shallow embedding of validate_samples (fast_validator.py lines
405-463): each early-return situation yields the empty result list;
otherwise every sample is validated. -/
def validate_samples : SamplesEnv → List DocResult
  | .xsltGenerationFailed => []
  | .noXsltFiles => []
  | .samplesDirMissing => []
  | .noXmlFiles => []
  | .docs files => files.map validate_xml_file

/-- The exit status computed by main in batch mode (fast_validator.py
lines 569-573): 0 when every result is successful with zero failed
assertions, 1 otherwise. -/
def batchExitCode (results : List DocResult) : Nat :=
  if results.all (fun r => r.success && r.totalFailedAssertions == 0) then 0 else 1

/-! ### Helper lemmas about the severity classifier -/

theorem sev_mem (role message test : String) :
    determine_severity role message test = "fatal" ∨
    determine_severity role message test = "error" ∨
    determine_severity role message test = "warning" ∨
    determine_severity role message test = "info" := by
  simp only [determine_severity]
  split_ifs with h1 h2 h3 h4 h5 h6
  · rcases h1 with h | h | h | h <;> simp [h]
  · exact Or.inl rfl
  · exact Or.inr (Or.inl rfl)
  · exact Or.inr (Or.inr (Or.inl rfl))
  · exact Or.inr (Or.inr (Or.inr rfl))
  · exact Or.inr (Or.inl rfl)
  · exact Or.inr (Or.inl rfl)

theorem sev_role (role message test : String)
    (h : lowerStr role = "fatal" ∨ lowerStr role = "error" ∨
         lowerStr role = "warning" ∨ lowerStr role = "info") :
    determine_severity role message test = lowerStr role := by
  simp only [determine_severity]
  rw [if_pos h]

theorem sev_no_role (role message test : String)
    (h : ¬(lowerStr role = "fatal" ∨ lowerStr role = "error" ∨
           lowerStr role = "warning" ∨ lowerStr role = "info")) :
    determine_severity role message test =
      (if anyKeyword fatalKeywords (lowerStr message) then "fatal"
       else if anyKeyword errorKeywords (lowerStr message) then "error"
       else if anyKeyword warningKeywords (lowerStr message) then "warning"
       else if anyKeyword infoKeywords (lowerStr message) then "info"
       else if containsSub (lowerStr test) "not(" ∨ containsSub (lowerStr test) "false()" then "error"
       else "error") := by
  simp only [determine_severity]
  rw [if_neg h]

/-! ### Helper lemmas about the run and document aggregation -/

theorem run_produced_success (raw : Option SvrlDoc) :
    (validate_against_xslt (.produced raw)).success = true := by
  cases raw with
  | none => rfl
  | some doc =>
      simp only [validate_against_xslt, analyze_svrl_output]
      by_cases h : doc.failedAsserts.isEmpty <;> simp [h]

theorem run_failed_zero (o : ExecOutcome) (h : (validate_against_xslt o).success = false) :
    (validate_against_xslt o).firedRules = 0 ∧
    (validate_against_xslt o).failedAssertions = 0 ∧
    (validate_against_xslt o).successfulReports = 0 := by
  cases o with
  | compileFailed => exact ⟨rfl, rfl, rfl⟩
  | raised => exact ⟨rfl, rfl, rfl⟩
  | engineFault => exact ⟨rfl, rfl, rfl⟩
  | produced raw => rw [run_produced_success raw] at h; cases h

theorem fold_xsltResults (cases : List XslCase) (acc : DocResult) :
    (cases.foldl docStep acc).xsltResults = acc.xsltResults ++ cases.map caseEntry := by
  induction cases generalizing acc with
  | nil => simp
  | cons c cs ih =>
      rw [List.foldl_cons, List.map_cons, ih]
      cases c with
      | missingFile => simp [docStep, caseEntry]
      | run o =>
          simp only [docStep]
          by_cases h : (validate_against_xslt o).success <;> simp [h, caseEntry]

theorem fold_success (cases : List XslCase) (acc : DocResult) :
    (cases.foldl docStep acc).success =
      (acc.success && cases.all (fun c => entrySuccess (caseEntry c))) := by
  induction cases generalizing acc with
  | nil => simp
  | cons c cs ih =>
      rw [List.foldl_cons, List.all_cons]
      cases c with
      | missingFile => simp [docStep, ih, caseEntry, entrySuccess]
      | run o =>
          simp only [docStep]
          by_cases h : (validate_against_xslt o).success <;>
            simp [h, ih, caseEntry, entrySuccess, Bool.and_assoc]

theorem successfulRuns_cons_missing (es : List XsltEntry) :
    successfulRuns (XsltEntry.missingFile :: es) = successfulRuns es := by
  simp [successfulRuns]

theorem successfulRuns_cons_ran (r : RunResult) (es : List XsltEntry) :
    successfulRuns (XsltEntry.ran r :: es) =
      (if r.success then [r] else []) ++ successfulRuns es := by
  by_cases h : r.success <;> simp [successfulRuns, h]

theorem fold_totals (cases : List XslCase) (acc : DocResult) :
    (cases.foldl docStep acc).totalFiredRules
        = acc.totalFiredRules +
          ((successfulRuns (cases.map caseEntry)).map RunResult.firedRules).sum
  ∧ (cases.foldl docStep acc).totalFailedAssertions
        = acc.totalFailedAssertions +
          ((successfulRuns (cases.map caseEntry)).map RunResult.failedAssertions).sum
  ∧ (cases.foldl docStep acc).totalSuccessfulReports
        = acc.totalSuccessfulReports +
          ((successfulRuns (cases.map caseEntry)).map RunResult.successfulReports).sum := by
  induction cases generalizing acc with
  | nil => simp [successfulRuns]
  | cons c cs ih =>
      rw [List.foldl_cons, List.map_cons]
      cases c with
      | missingFile =>
          simp only [caseEntry, successfulRuns_cons_missing]
          refine ⟨?_, ?_, ?_⟩ <;> simp [docStep, (ih _).1, (ih _).2.1, (ih _).2.2]
      | run o =>
          simp only [caseEntry, successfulRuns_cons_ran]
          by_cases h : (validate_against_xslt o).success
          · refine ⟨?_, ?_, ?_⟩ <;>
              simp [docStep, h, (ih _).1, (ih _).2.1, (ih _).2.2, Nat.add_assoc]
          · obtain ⟨h1, h2, h3⟩ := run_failed_zero o (by simpa using h)
            refine ⟨?_, ?_, ?_⟩ <;>
              simp [docStep, h, (ih _).1, (ih _).2.1, (ih _).2.2]

/-- The schematron_results entry built from one successful run. -/
def schOf (r : RunResult) : SchematronResult :=
  { rulesFired := r.firedRules
    failedAssertions := r.failedAssertions
    successfulReports := r.successfulReports
    severityBreakdown := r.severityBreakdown
    errors := r.errorDetails }

theorem json_fold (es : List XsltEntry) (acc : SeverityBreakdown × List SchematronResult) :
    es.foldl jsonStep acc =
      ((successfulRuns es).foldl
          (fun b r => addBreakdown b (r.severityBreakdown.getD emptyBreakdown)) acc.1,
       acc.2 ++ (successfulRuns es).map schOf) := by
  induction es generalizing acc with
  | nil => simp [successfulRuns]
  | cons e es ih =>
      cases e with
      | missingFile =>
          rw [List.foldl_cons, successfulRuns_cons_missing]
          simpa [jsonStep] using ih acc
      | ran r =>
          rw [List.foldl_cons, successfulRuns_cons_ran]
          by_cases h : r.success
          · simp only [jsonStep, h, if_pos]
            rw [ih]
            simp [schOf]
          · simp only [jsonStep, h]
            simpa [h] using ih acc

theorem entryFailed_sum (es : List XsltEntry)
    (h : ∀ r, XsltEntry.ran r ∈ es → r.success = false → r.failedAssertions = 0) :
    (es.map entryFailed).sum = ((successfulRuns es).map RunResult.failedAssertions).sum := by
  induction es with
  | nil => simp [successfulRuns]
  | cons e es ih =>
      have ih2 := ih (fun r hr hs => h r (List.mem_cons_of_mem _ hr) hs)
      cases e with
      | missingFile =>
          rw [List.map_cons, successfulRuns_cons_missing]
          simpa [entryFailed] using ih2
      | ran r =>
          rw [List.map_cons, successfulRuns_cons_ran]
          by_cases hs : r.success
          · simp [entryFailed, hs, ih2]
          · have hz := h r (List.mem_cons_self _ _) (by simpa using hs)
            simp [entryFailed, hs, hz, ih2]

/-! ### Claim theorems -/

/-- C1, counterexample: a failed assertion with no role attribute whose
message contains the warning keyword "should" and no fatal or error
keyword is classified error, not warning, because _analyze_svrl_output
substitutes the default role "error" before calling _determine_severity. -/
theorem absent_role_warning_counterexample :
    assertSeverity
        { location := none, test := some "x", role := none,
          text := some "The element should be present", ruleId := none } ≠ "warning"
    ∧ assertSeverity
        { location := none, test := some "x", role := none,
          text := some "The element should be present", ruleId := none } = "error"
    ∧ anyKeyword warningKeywords (lowerStr "The element should be present") = true
    ∧ anyKeyword fatalKeywords (lowerStr "The element should be present") = false
    ∧ anyKeyword errorKeywords (lowerStr "The element should be present") = false := by
  decide

theorem det_error_role (m t : String) : determine_severity "error" m t = "error" :=
  (sev_role "error" m t (Or.inr (Or.inl (by decide)))).trans (by decide)

/-- C1, amended: a finding whose role attribute is absent is given the
default role "error" by the analyzer and is therefore classified error
regardless of its message; the message-keyword step is reached only when a
role attribute is present with a value outside the four severity names, in
which case a message containing a warning keyword and no fatal or error
keyword is classified warning. -/
theorem absent_role_defaults_to_error :
    (∀ loc test text rid : Option String,
        assertSeverity { location := loc, test := test, role := none,
                         text := text, ruleId := rid } = "error")
    ∧ (∀ (roleVal message testVal : String) (loc rid : Option String),
        ¬(lowerStr roleVal = "fatal" ∨ lowerStr roleVal = "error" ∨
          lowerStr roleVal = "warning" ∨ lowerStr roleVal = "info") →
        anyKeyword fatalKeywords (lowerStr message) = false →
        anyKeyword errorKeywords (lowerStr message) = false →
        anyKeyword warningKeywords (lowerStr message) = true →
        assertSeverity { location := loc, test := some testVal, role := some roleVal,
                         text := some message, ruleId := rid } = "warning") := by
  constructor
  · intro loc test text rid
    simp only [assertSeverity, Option.getD_none]
    exact det_error_role _ _
  · intro roleVal message testVal loc rid hrole hf he hw
    have hne : message ≠ "" := by
      intro h
      rw [h] at hw
      exact absurd hw (by decide)
    simp only [assertSeverity, Option.getD_some]
    rw [if_neg hne, sev_no_role roleVal message testVal hrole]
    simp [hf, he, hw]

/-- Witness for the amended C1: a concrete finding with role attribute
"none" and a warning-keyword message is classified warning. -/
theorem absent_role_defaults_to_error_witness :
    assertSeverity { location := none, test := some "t", role := some "none",
                     text := some "You should do this", ruleId := none } = "warning" :=
  absent_role_defaults_to_error.2 "none" "You should do this" "t" none none
    (by decide) (by decide) (by decide) (by decide)

/-- C2: severity classification is total and deterministic: the result is
always one of the four severities; a role lowercasing to one of the four
names is authoritative (in particular role "warning" wins over any message
content); otherwise the first matching message keyword set wins in the
order fatal, error, warning, info; with no keyword match the result is
error whether or not the test contains a negation form. -/
theorem severity_chain_spec (role message test : String) :
    (determine_severity role message test = "fatal" ∨
     determine_severity role message test = "error" ∨
     determine_severity role message test = "warning" ∨
     determine_severity role message test = "info")
    ∧ (lowerStr role = "warning" → determine_severity role message test = "warning")
    ∧ ((lowerStr role = "fatal" ∨ lowerStr role = "error" ∨
        lowerStr role = "warning" ∨ lowerStr role = "info") →
        determine_severity role message test = lowerStr role)
    ∧ (¬(lowerStr role = "fatal" ∨ lowerStr role = "error" ∨
         lowerStr role = "warning" ∨ lowerStr role = "info") →
        (anyKeyword fatalKeywords (lowerStr message) = true →
          determine_severity role message test = "fatal")
        ∧ (anyKeyword fatalKeywords (lowerStr message) = false →
           anyKeyword errorKeywords (lowerStr message) = true →
           determine_severity role message test = "error")
        ∧ (anyKeyword fatalKeywords (lowerStr message) = false →
           anyKeyword errorKeywords (lowerStr message) = false →
           anyKeyword warningKeywords (lowerStr message) = true →
           determine_severity role message test = "warning")
        ∧ (anyKeyword fatalKeywords (lowerStr message) = false →
           anyKeyword errorKeywords (lowerStr message) = false →
           anyKeyword warningKeywords (lowerStr message) = false →
           anyKeyword infoKeywords (lowerStr message) = true →
           determine_severity role message test = "info")
        ∧ (anyKeyword fatalKeywords (lowerStr message) = false →
           anyKeyword errorKeywords (lowerStr message) = false →
           anyKeyword warningKeywords (lowerStr message) = false →
           anyKeyword infoKeywords (lowerStr message) = false →
           ((containsSub (lowerStr test) "not(" ∨ containsSub (lowerStr test) "false()") →
             determine_severity role message test = "error")
           ∧ (¬(containsSub (lowerStr test) "not(" ∨ containsSub (lowerStr test) "false()") →
             determine_severity role message test = "error"))) := by
  refine ⟨sev_mem role message test, ?_, ?_, ?_⟩
  · intro h
    rw [sev_role role message test (Or.inr (Or.inr (Or.inl h))), h]
  · intro h
    exact sev_role role message test h
  · intro h
    rw [sev_no_role role message test h]
    refine ⟨?_, ?_, ?_, ?_, ?_⟩
    · intro hf; simp [hf]
    · intro hf he; simp [hf, he]
    · intro hf he hw; simp [hf, he, hw]
    · intro hf he hw hi; simp [hf, he, hw, hi]
    · intro hf he hw hi
      constructor
      · intro ht; simp [hf, he, hw, hi]
      · intro ht; simp [hf, he, hw, hi]

/-- Witness for C2: a role outside the four names with a warning-keyword
message classifies as warning via the keyword chain. -/
theorem severity_chain_spec_witness :
    determine_severity "x" "You should do this" "y" = "warning" :=
  ((severity_chain_spec "x" "You should do this" "y").2.2.2 (by decide)).2.2.1
    (by decide) (by decide) (by decide)

theorem validate_xml_file_results (cases : List XslCase) :
    (validate_xml_file cases).xsltResults = cases.map caseEntry := by
  simpa using fold_xsltResults cases
    { xsltResults := [], success := true
      totalFiredRules := 0, totalFailedAssertions := 0, totalSuccessfulReports := 0 }

theorem validate_xml_file_success (cases : List XslCase) :
    (validate_xml_file cases).success = (validate_xml_file cases).xsltResults.all entrySuccess := by
  rw [validate_xml_file_results]
  have h := fold_success cases
    { xsltResults := [], success := true
      totalFiredRules := 0, totalFailedAssertions := 0, totalSuccessfulReports := 0 }
  rw [validate_xml_file, h]
  simp only [Bool.true_and]
  clear h
  induction cases with
  | nil => rfl
  | cons c cs ih => simp [ih]

theorem validate_xml_file_totals (cases : List XslCase) :
    (validate_xml_file cases).totalFiredRules
        = ((successfulRuns ((validate_xml_file cases).xsltResults)).map RunResult.firedRules).sum
    ∧ (validate_xml_file cases).totalFailedAssertions
        = ((successfulRuns ((validate_xml_file cases).xsltResults)).map RunResult.failedAssertions).sum
    ∧ (validate_xml_file cases).totalSuccessfulReports
        = ((successfulRuns ((validate_xml_file cases).xsltResults)).map RunResult.successfulReports).sum := by
  rw [validate_xml_file_results]
  have h := fold_totals cases
    { xsltResults := [], success := true
      totalFiredRules := 0, totalFailedAssertions := 0, totalSuccessfulReports := 0 }
  exact ⟨by simpa using h.1, by simpa using h.2.1, by simpa using h.2.2⟩

theorem entries_failed_invariant (cases : List XslCase) :
    ∀ r, XsltEntry.ran r ∈ (validate_xml_file cases).xsltResults →
      r.success = false → r.failedAssertions = 0 := by
  rw [validate_xml_file_results]
  intro r hr hs
  obtain ⟨c, _, heq⟩ := List.mem_map.1 hr
  cases c with
  | missingFile => cases heq
  | run o =>
      have : validate_against_xslt o = r := by
        simpa [caseEntry] using heq
      exact this ▸ (run_failed_zero o (this.symm ▸ hs)).2.1

/-- C3: the document-level failed-assertion total equals the sum of the
per-rule-set failed-assertion counts over the xslt_results list, and the
document is reported valid iff every per-rule-set run succeeded and the
total failed-assertion count is zero. -/
theorem document_verdict_and_totals (cases : List XslCase) :
    (validate_xml_file cases).totalFailedAssertions
        = (((validate_xml_file cases).xsltResults).map entryFailed).sum
    ∧ (is_valid (validate_xml_file cases) = true ↔
        ((validate_xml_file cases).xsltResults.all entrySuccess = true ∧
         (validate_xml_file cases).totalFailedAssertions = 0)) := by
  constructor
  · rw [(validate_xml_file_totals cases).2.1,
      entryFailed_sum _ (entries_failed_invariant cases)]
  · rw [is_valid, validate_xml_file_success]
    simp

/-- Witness for C3 at the claimed example: two successful rule sets
reporting 3 and 0 failed assertions yield a total of 3 and validity
false. -/
theorem document_verdict_and_totals_witness :
    (validate_xml_file
        [XslCase.run (.produced (some ⟨5, [⟨none, none, none, none, none⟩,
            ⟨none, none, none, none, none⟩, ⟨none, none, none, none, none⟩], 0⟩)),
         XslCase.run (.produced (some ⟨4, [], 0⟩))]).totalFailedAssertions = 3
    ∧ is_valid (validate_xml_file
        [XslCase.run (.produced (some ⟨5, [⟨none, none, none, none, none⟩,
            ⟨none, none, none, none, none⟩, ⟨none, none, none, none, none⟩], 0⟩)),
         XslCase.run (.produced (some ⟨4, [], 0⟩))]) = false := by
  have h := document_verdict_and_totals
    [XslCase.run (.produced (some ⟨5, [⟨none, none, none, none, none⟩,
        ⟨none, none, none, none, none⟩, ⟨none, none, none, none, none⟩], 0⟩)),
     XslCase.run (.produced (some ⟨4, [], 0⟩))]
  constructor
  · rw [h.1]; decide
  · have h3 : (validate_xml_file
        [XslCase.run (.produced (some ⟨5, [⟨none, none, none, none, none⟩,
            ⟨none, none, none, none, none⟩, ⟨none, none, none, none, none⟩], 0⟩)),
         XslCase.run (.produced (some ⟨4, [], 0⟩))]).totalFailedAssertions = 3 := by
      rw [h.1]; decide
    by_contra hv
    have hvt := (h.2).1 (by
      cases hx : is_valid (validate_xml_file
        [XslCase.run (.produced (some ⟨5, [⟨none, none, none, none, none⟩,
            ⟨none, none, none, none, none⟩, ⟨none, none, none, none, none⟩], 0⟩)),
         XslCase.run (.produced (some ⟨4, [], 0⟩))])
      · exact absurd hx hv
      · rfl)
    rw [h3] at hvt
    exact absurd hvt.2 (by decide)

/-- C7: a malformed raw SVRL output degrades gracefully: the analyzer
leaves the result unchanged apart from recording a parse warning (so the
success flag keeps its value from execution), the run produced for
unparseable output has success true with all counts zero, and processing
always continues over the remaining rule sets and documents (one result
entry per input, one document report per sample). -/
theorem parse_failure_graceful (r : RunResult) (cases : List XslCase)
    (files : List (List XslCase)) :
    analyze_svrl_output none r = { r with parseWarning := true }
    ∧ validate_against_xslt (.produced none) =
        { initialRunResult with success := true, parseWarning := true }
    ∧ (validate_xml_file cases).xsltResults.length = cases.length
    ∧ (validate_samples (.docs files)).length = files.length := by
  refine ⟨rfl, rfl, ?_, ?_⟩
  · rw [validate_xml_file_results, List.length_map]
  · simp [validate_samples]

/-- C9: an unsuccessful per-rule-set run contributes nothing to the JSON
report: the schematron_results list and the overall severity histogram are
built from the successful runs only, and the document totals are sums over
the successful runs only. -/
theorem failed_runs_omitted (cases : List XslCase) :
    (create_json_result (validate_xml_file cases)).schematronResults
        = (successfulRuns ((validate_xml_file cases).xsltResults)).map schOf
    ∧ (create_json_result (validate_xml_file cases)).overallSeverityBreakdown
        = (successfulRuns ((validate_xml_file cases).xsltResults)).foldl
            (fun b r => addBreakdown b (r.severityBreakdown.getD emptyBreakdown)) emptyBreakdown
    ∧ (validate_xml_file cases).totalFiredRules
        = ((successfulRuns ((validate_xml_file cases).xsltResults)).map RunResult.firedRules).sum
    ∧ (validate_xml_file cases).totalFailedAssertions
        = ((successfulRuns ((validate_xml_file cases).xsltResults)).map RunResult.failedAssertions).sum
    ∧ (validate_xml_file cases).totalSuccessfulReports
        = ((successfulRuns ((validate_xml_file cases).xsltResults)).map
            RunResult.successfulReports).sum := by
  have hj := json_fold ((validate_xml_file cases).xsltResults) (emptyBreakdown, [])
  have ht := validate_xml_file_totals cases
  refine ⟨?_, ?_, ht.1, ht.2.1, ht.2.2⟩
  · simp only [create_json_result, hj, List.nil_append]
  · simp only [create_json_result, hj, List.nil_append]

/-- C4: needs_transformation returns true iff the compiled artifact is
missing, or the cache record is absent (including unreadable or malformed
records, which get_cache_info treats as absent), or the stored digest
differs from the freshly computed digest; with an existing artifact and a
matching stored digest it returns false. -/
theorem needs_transformation_spec (st : RuleSourceState) :
    (needs_transformation st = true ↔
      (st.outputExists = false ∨ get_cache_info st.cacheRecord = none ∨
       ∃ info, get_cache_info st.cacheRecord = some info ∧ info.1 ≠ st.currentHash))
    ∧ get_cache_info none = none
    ∧ (∀ l : List String, l.length < 2 → get_cache_info (some l) = none)
    ∧ (st.outputExists = true →
       (∃ info, get_cache_info st.cacheRecord = some info ∧ info.1 = st.currentHash) →
       needs_transformation st = false) := by
  refine ⟨?_, rfl, ?_, ?_⟩
  · cases hE : st.outputExists
    · simp [needs_transformation, hE]
    · cases hC : get_cache_info st.cacheRecord with
      | none => simp [needs_transformation, hE, hC]
      | some info =>
          by_cases hne : info.1 = st.currentHash
          · simp [needs_transformation, hE, hC, hne]
          · simp only [needs_transformation, hE, hC]
            simp [hne]
  · intro l hl
    match l with
    | [] => rfl
    | [a] => rfl
    | a :: b :: t => simp at hl; omega
  · rintro hE ⟨info, hC, hEq⟩
    simp [needs_transformation, hE, hC, hEq]

/-- Witness for C4: an existing artifact with a two-line cache record whose
stored digest matches the current digest needs no rebuild. -/
theorem needs_transformation_spec_witness :
    needs_transformation ⟨true, "d41d8", some ["d41d8", "1700000000"]⟩ = false :=
  (needs_transformation_spec ⟨true, "d41d8", some ["d41d8", "1700000000"]⟩).2.2.2
    rfl ⟨("d41d8", "1700000000"), rfl, rfl⟩

theorem countP_eq_length_iff {α : Type} (p : α → Bool) (l : List α) :
    (l.countP p = l.length) ↔ ∀ a ∈ l, p a = true := by
  induction l with
  | nil => simp
  | cons a l ih =>
      rw [List.countP_cons, List.length_cons]
      by_cases h : p a = true
      · simp [h, ih]
      · have h0 : (if p a = true then 1 else 0) = 0 := by simp [h]
        rw [h0]
        constructor
        · intro hc
          have hle : l.countP p ≤ l.length := List.countP_le_length p
          omega
        · intro hall
          exact absurd (hall a (List.mem_cons_self a l)) h

/-- C5: with requirements met and a nonempty source list, the batch
processes every source (one outcome per source, a failure never aborts the
rest), an up-to-date source is skipped and a skip counts as a success, and
the batch reports overall success iff every source ended skipped or
compiled. -/
theorem batch_partial_failure (force : Bool) (sources : List BatchSource)
    (hne : sources ≠ []) :
    ((transform_all_schematron_files true force sources).1.length = sources.length)
    ∧ ((transform_all_schematron_files true force sources).1 =
        sources.map (processSource force))
    ∧ (∀ s ∈ sources, force = false → s.needsT = false →
        processSource force s = BatchOutcome.skipped
        ∧ outcomeCounted BatchOutcome.skipped = true)
    ∧ ((transform_all_schematron_files true force sources).2 = true ↔
        ∀ o ∈ (transform_all_schematron_files true force sources).1,
          o = BatchOutcome.skipped ∨ o = BatchOutcome.compiled) := by
  have hE : sources.isEmpty = false := by
    cases sources with
    | nil => exact absurd rfl hne
    | cons a l => rfl
  refine ⟨?_, ?_, ?_, ?_⟩
  · simp [transform_all_schematron_files, hE]
  · simp [transform_all_schematron_files, hE]
  · intro s _ hf hn
    subst hf
    exact ⟨by simp [processSource, hn], rfl⟩
  · simp only [transform_all_schematron_files, Bool.not_true, Bool.false_eq_true,
      if_false, hE, List.isEmpty_eq_false]
    rw [beq_iff_eq]
    have hlen : sources.length = (sources.map (processSource force)).length := by simp
    rw [hlen, countP_eq_length_iff]
    constructor
    · intro h o ho
      have := h o ho
      cases o <;> simp_all [outcomeCounted]
    · intro h o ho
      have := h o ho
      cases o <;> simp_all [outcomeCounted]

/-- Witness for C5 at the claimed example: three sources, one of which
fails compilation, yield outcomes with two successes and one failure and
overall result false. -/
theorem batch_partial_failure_witness :
    (transform_all_schematron_files true false
        [⟨false, true⟩, ⟨true, true⟩, ⟨true, false⟩]).1.length = 3
    ∧ ((transform_all_schematron_files true false
        [⟨false, true⟩, ⟨true, true⟩, ⟨true, false⟩]).2 = true ↔
        ∀ o ∈ (transform_all_schematron_files true false
            [⟨false, true⟩, ⟨true, true⟩, ⟨true, false⟩]).1,
          o = BatchOutcome.skipped ∨ o = BatchOutcome.compiled) := by
  have h := batch_partial_failure false
    [⟨false, true⟩, ⟨true, true⟩, ⟨true, false⟩] (by decide)
  exact ⟨h.1, h.2.2.2⟩

/-- C6: the stylesheet executable cache: a hit returns the stored
executable with no engine call and bumps the hit counter; a miss with an
existing file invokes the engine once and stores a usable executable under
the path key; a compile failure (missing file, falsy executable or raised
exception) returns none, is never stored, and a later call for the same
path compiles again. -/
theorem xslt_cache_spec {E : Type} (st : XsltCacheState E) (key : String)
    (fileExists : Bool) (engine : CompileOutcome E) :
    (∀ e, st.cache.lookup key = some e →
        get_compiled_xslt st key fileExists engine =
          (some e, { st with cacheHits := st.cacheHits + 1 }))
    ∧ (st.cache.lookup key = none → fileExists = true → ∀ e, engine = .ok e →
        get_compiled_xslt st key fileExists engine =
          (some e, { st with engineCalls := st.engineCalls + 1,
                             cache := st.cache ++ [(key, e)] }))
    ∧ (st.cache.lookup key = none →
       (engine = .falsy ∨ engine = .raised ∨ fileExists = false) →
        (get_compiled_xslt st key fileExists engine).1 = none
        ∧ (get_compiled_xslt st key fileExists engine).2.cache = st.cache
        ∧ ∀ e2, (get_compiled_xslt (get_compiled_xslt st key fileExists engine).2 key true
                  (.ok e2)).1 = some e2) := by
  refine ⟨?_, ?_, ?_⟩
  · intro e he
    simp [get_compiled_xslt, he]
  · intro hn hf e heng
    subst hf heng
    simp [get_compiled_xslt, hn]
  · intro hn hcase
    rcases hcase with h | h | h
    · subst h
      cases hfe : fileExists <;> simp [get_compiled_xslt, hn]
    · subst h
      cases hfe : fileExists <;> simp [get_compiled_xslt, hn]
    · subst h
      cases engine <;> simp [get_compiled_xslt, hn]

/-- Witness for C6: with a one-entry cache holding the executable 7 under
key "k", a call for "k" is a hit: it returns 7 and only bumps the hit
counter. -/
theorem xslt_cache_spec_witness :
    get_compiled_xslt (⟨[("k", 7)], 0, 0⟩ : XsltCacheState Nat) "k" true (.ok 5) =
      (some 7, ⟨[("k", 7)], 1, 0⟩) :=
  (xslt_cache_spec (⟨[("k", 7)], 0, 0⟩ : XsltCacheState Nat) "k" true (.ok 5)).1 7 (by decide)

/-- C10: in batch mode each of the four empty-result situations (XSLT
generation failed, no compiled stylesheets, missing samples directory, no
XML files) yields an empty result list, over which the all-valid check is
vacuously true, so the process exit status is 0. -/
theorem empty_batch_exits_zero :
    validate_samples .xsltGenerationFailed = []
    ∧ validate_samples .noXsltFiles = []
    ∧ validate_samples .samplesDirMissing = []
    ∧ validate_samples .noXmlFiles = []
    ∧ batchExitCode (validate_samples .xsltGenerationFailed) = 0
    ∧ batchExitCode (validate_samples .noXsltFiles) = 0
    ∧ batchExitCode (validate_samples .samplesDirMissing) = 0
    ∧ batchExitCode (validate_samples .noXmlFiles) = 0
    ∧ batchExitCode [] = 0 :=
  ⟨rfl, rfl, rfl, rfl, rfl, rfl, rfl, rfl, rfl⟩

/-! ### Helper lemmas about substring containment and the tag scan -/

theorem isPrefixOfL_append (n s y : List Char) (h : isPrefixOfL n s = true) :
    isPrefixOfL n (s ++ y) = true := by
  induction n generalizing s with
  | nil => rfl
  | cons a as ih =>
      cases s with
      | nil => cases h
      | cons b bs =>
          simp only [isPrefixOfL, Bool.and_eq_true, beq_iff_eq] at h
          simp only [List.cons_append, isPrefixOfL, Bool.and_eq_true, beq_iff_eq]
          exact ⟨h.1, ih bs h.2⟩

theorem containsL_append_left (n x s : List Char) (h : containsL n s = true) :
    containsL n (x ++ s) = true := by
  induction x with
  | nil => exact h
  | cons c cs ih =>
      show (isPrefixOfL n (c :: (cs ++ s)) || containsL n (cs ++ s)) = true
      rw [ih, Bool.or_true]

theorem containsL_append_right (n s y : List Char) (h : containsL n s = true) :
    containsL n (s ++ y) = true := by
  induction s with
  | nil =>
      have hn : n = [] := by
        cases n with
        | nil => rfl
        | cons a as => cases h
      subst hn
      cases y with
      | nil => rfl
      | cons b bs => rfl
  | cons c cs ih =>
      rw [show containsL n (c :: cs) = (isPrefixOfL n (c :: cs) || containsL n cs) from rfl] at h
      show (isPrefixOfL n (c :: (cs ++ y)) || containsL n (cs ++ y)) = true
      rcases (by simpa using h : isPrefixOfL n (c :: cs) = true ∨ containsL n cs = true) with hp | hc
      · have hp2 := isPrefixOfL_append n (c :: cs) y hp
        rw [List.cons_append] at hp2
        rw [hp2, Bool.true_or]
      · rw [ih hc, Bool.or_true]

theorem splitAfterChar_eq (stop : Char) (s t r : List Char)
    (h : splitAfterChar stop s = some (t, r)) : s = t ++ r := by
  induction s generalizing t r with
  | nil => cases h
  | cons c cs ih =>
      simp only [splitAfterChar] at h
      by_cases hc : c = stop
      · rw [if_pos hc] at h
        obtain ⟨rfl, rfl⟩ := Prod.mk.injEq .. ▸ Option.some.inj h
        rfl
      · rw [if_neg hc] at h
        cases hm : splitAfterChar stop cs with
        | none => rw [hm] at h; cases h
        | some p =>
            obtain ⟨t0, r0⟩ := p
            rw [hm] at h
            obtain ⟨rfl, rfl⟩ := Prod.mk.injEq .. ▸ Option.some.inj h
            rw [List.cons_append, ← ih t0 r0 hm]

theorem containsL_cons_false (p : List Char) (c : Char) (b0 rest : List Char)
    (hpre : isPrefixOfL p (c :: (b0 ++ rest)) = false)
    (hcon : containsL p b0 = false) :
    containsL p (c :: b0) = false := by
  cases hx : isPrefixOfL p (c :: b0) with
  | false =>
      show (isPrefixOfL p (c :: b0) || containsL p b0) = false
      rw [hx, hcon]
      rfl
  | true =>
      have h2 := isPrefixOfL_append p (c :: b0) rest hx
      rw [List.cons_append] at h2
      rw [h2] at hpre
      exact Bool.noConfusion hpre

theorem findStylesheetTag_split (s b t r : List Char)
    (h : findStylesheetTag s = some (b, t, r)) :
    s = b ++ t ++ r ∧ containsL styleOpen1 b = false ∧ containsL styleOpen2 b = false := by
  induction s generalizing b t r with
  | nil => cases h
  | cons c cs ih =>
      simp only [findStylesheetTag] at h
      by_cases hp : (isPrefixOfL styleOpen1 (c :: cs) || isPrefixOfL styleOpen2 (c :: cs)) = true
      · rw [if_pos hp] at h
        cases hm : splitAfterChar '>' (c :: cs) with
        | none => rw [hm] at h; cases h
        | some p =>
            obtain ⟨t0, r0⟩ := p
            rw [hm] at h
            obtain ⟨rfl, rfl, rfl⟩ := Prod.mk.injEq .. ▸ Option.some.inj h
            refine ⟨?_, rfl, rfl⟩
            simpa using splitAfterChar_eq '>' (c :: cs) t r hm
      · rw [if_neg hp] at h
        cases hm : findStylesheetTag cs with
        | none => rw [hm] at h; cases h
        | some p =>
            obtain ⟨b0, t0, r0⟩ := p
            rw [hm] at h
            obtain ⟨rfl, rfl, rfl⟩ := Prod.mk.injEq .. ▸ Option.some.inj h
            obtain ⟨hsplit, h1, h2⟩ := ih b0 t r hm
            have hcs : cs = b0 ++ (t ++ r) := by rw [hsplit, List.append_assoc]
            have hnp1 : isPrefixOfL styleOpen1 (c :: cs) = false := by
              cases hx : isPrefixOfL styleOpen1 (c :: cs) <;> simp_all
            have hnp2 : isPrefixOfL styleOpen2 (c :: cs) = false := by
              cases hx : isPrefixOfL styleOpen2 (c :: cs) <;> simp_all
            rw [hcs] at hnp1 hnp2
            exact ⟨by rw [hsplit]; rfl,
              containsL_cons_false styleOpen1 c b0 (t ++ r) hnp1 h1,
              containsL_cons_false styleOpen2 c b0 (t ++ r) hnp2 h2⟩

/-- C8: namespace repair idempotence: on artifact text lacking the
"xmlns:xsd=" declaration whose leftmost root-stylesheet opening tag is
found at the split (before, tag, rest), the repair rewrites exactly that
one tag — the before part contains no stylesheet opening literal, so the
insertion lands in the first (root) opening tag only — by dropping the
closing bracket and appending the single XML-Schema declaration; the
repaired text contains the declaration, so a second repair pass returns it
unchanged. -/
theorem namespace_repair_idempotent (content b t r : List Char)
    (hmk : containsL xsdMarker content = false)
    (hft : findStylesheetTag content = some (b, t, r)) :
    add_missing_xsd_namespace content = (b ++ t.dropLast ++ xsdInsertion ++ r, true)
    ∧ content = b ++ t ++ r
    ∧ containsL styleOpen1 b = false
    ∧ containsL styleOpen2 b = false
    ∧ containsL xsdMarker (b ++ t.dropLast ++ xsdInsertion ++ r) = true
    ∧ add_missing_xsd_namespace (b ++ t.dropLast ++ xsdInsertion ++ r)
        = (b ++ t.dropLast ++ xsdInsertion ++ r, false) := by
  obtain ⟨hsplit, h1, h2⟩ := findStylesheetTag_split content b t r hft
  have hrep : add_missing_xsd_namespace content = (b ++ t.dropLast ++ xsdInsertion ++ r, true) := by
    rw [add_missing_xsd_namespace, if_neg (by rw [hmk]; exact Bool.noConfusion), hft]
  have hx : containsL xsdMarker xsdInsertion = true := by decide
  have hcontains : containsL xsdMarker (b ++ t.dropLast ++ xsdInsertion ++ r) = true := by
    rw [List.append_assoc (b ++ t.dropLast) xsdInsertion r]
    exact containsL_append_left _ _ _ (containsL_append_right _ _ _ hx)
  have hnoop : add_missing_xsd_namespace (b ++ t.dropLast ++ xsdInsertion ++ r)
      = (b ++ t.dropLast ++ xsdInsertion ++ r, false) := by
    rw [add_missing_xsd_namespace, if_pos hcontains]
  exact ⟨hrep, hsplit, h1, h2, hcontains, hnoop⟩

/-- Witness for C8 on concrete artifact text. -/
theorem namespace_repair_idempotent_witness :
    add_missing_xsd_namespace "x<stylesheet a>y".data =
      ("x".data ++ "<stylesheet a>".data.dropLast ++ xsdInsertion ++ "y".data, true)
    ∧ "x<stylesheet a>y".data = "x".data ++ "<stylesheet a>".data ++ "y".data
    ∧ containsL styleOpen1 "x".data = false
    ∧ containsL styleOpen2 "x".data = false
    ∧ containsL xsdMarker
        ("x".data ++ "<stylesheet a>".data.dropLast ++ xsdInsertion ++ "y".data) = true
    ∧ add_missing_xsd_namespace
        ("x".data ++ "<stylesheet a>".data.dropLast ++ xsdInsertion ++ "y".data)
        = ("x".data ++ "<stylesheet a>".data.dropLast ++ xsdInsertion ++ "y".data, false) :=
  namespace_repair_idempotent "x<stylesheet a>y".data "x".data "<stylesheet a>".data "y".data
    (by decide) (by decide)

end Schematrode
